import Mathlib

/-!
Shallow embedding of the conversational-session and request-orchestration
core of the Bhaii AI Studio single-page application.

Sources embedded:
- src/unnamed/part_002 (types.ts): ChatMessage, UserPreferences.
- src/services/geminiService.ts: chatWithBhaii, editImageWithGemini,
  generateHDImageWithGemini, including their catch handlers.
- src/components/SlideshowGenerator.tsx: ChatInterface.handleSendMessage,
  the preference save effect, the slideshow state machine
  (startSlideshow, the timer-advance callback, handleGenerate).
- src/unnamed/part_001 (App.tsx): the preference load effect.

Modelling conventions: JavaScript Date instants are carried as their
millisecond count (an Int); JSON serialisation of a Date goes through
toISOString, which renders the millisecond-precision instant exactly and
is parsed back exactly by the Date constructor, so the stored timestamp
is modelled as the same millisecond count.  JavaScript string falsiness
(the empty string is falsy) is modelled by jsOr.  Remote calls are
modelled by an explicit outcome parameter, and each gateway operation
additionally reports whether the remote call was issued where a claim
needs it.
-/

namespace BhaiiAI

/-- src/unnamed/part_002: `sender: 'user' | 'bhaii'`, a two-value string
union, embedded as a two-constructor inductive. -/
inductive Sender where
  | user
  | bhaii
deriving DecidableEq, Repr

/-- src/unnamed/part_002: interface ChatMessage.  The timestamp field is a
JavaScript Date, carried as its millisecond count. -/
structure ChatMessage where
  id : String
  sender : Sender
  text : String
  timestamp : Int
deriving DecidableEq, Repr

/-- src/unnamed/part_002: interface UserPreferences. -/
structure UserPreferences where
  name : String
  rememberMe : Bool
  lastChat : List ChatMessage
deriving DecidableEq, Repr

/-- JavaScript `a || b` on strings: the empty string is falsy. -/
def jsOr (a b : String) : String :=
  if a = "" then b else a

/-- Drop leading and trailing whitespace from a character list. -/
def trimChars (cs : List Char) : List Char :=
  ((cs.dropWhile Char.isWhitespace).reverse.dropWhile Char.isWhitespace).reverse

/-- JavaScript `s.trim()`: remove leading and trailing whitespace. -/
def jsTrim (s : String) : String :=
  String.mk (trimChars s.data)

/-- JavaScript `s.split('\n')` on the character list: the delimiter is
dropped and empty pieces are kept. -/
def splitOnNewline : List Char → List (List Char)
  | [] => [[]]
  | c :: cs =>
      match splitOnNewline cs with
      | [] => [[]]
      | line :: rest =>
          if c = '\n' then [] :: line :: rest else (c :: line) :: rest

/-- Character-list prefix test (used to build the substring test that
embeds JavaScript String.prototype.includes). -/
def charsLeadWith : List Char → List Char → Bool
  | [], _ => true
  | _ :: _, [] => false
  | a :: as, b :: bs => a == b && charsLeadWith as bs

/-- Character-list substring test. -/
def charsInclude (pat : List Char) : List Char → Bool
  | [] => charsLeadWith pat []
  | b :: bs => charsLeadWith pat (b :: bs) || charsInclude pat bs

/-- JavaScript `s.includes(pat)`. -/
def strIncludes (s pat : String) : Bool :=
  charsInclude pat.toList s.toList

/-- src/services/geminiService.ts: interface GeminiChatResponse. -/
structure GeminiChatResponse where
  text : String
  error : Option String
deriving DecidableEq, Repr

/-- src/services/geminiService.ts: interface GeminiImageEditResponse. -/
structure GeminiImageEditResponse where
  imageUrl : Option String
  error : Option String
deriving DecidableEq, Repr

/-- src/services/geminiService.ts: interface GeminiHDImageGenerationResponse. -/
structure GeminiHDImageGenerationResponse where
  imageUrl : Option String
  error : Option String
deriving DecidableEq, Repr

/-- src/services/geminiService.ts lines 84-93: the catch handler of
chatWithBhaii.  The thrown error message is modelled as a String, with ""
standing for an absent message (JavaScript `error.message &&` guard). -/
def chatCatch (m : String) : GeminiChatResponse :=
  if m ≠ "" ∧ strIncludes m "Requested entity was not found" then
    { text := "", error := some "API key issue. Please select your API key again from the dialog." }
  else
    { text := "", error := some "Sorry, kuch gadbad ho gayi. Can you please try again?" }

/-- src/services/geminiService.ts: the catch handler of editImageWithGemini. -/
def editCatch (m : String) : GeminiImageEditResponse :=
  if m ≠ "" ∧ strIncludes m "Requested entity was not found" then
    { imageUrl := none, error := some "API key issue. Please select your API key again from the dialog." }
  else
    { imageUrl := none, error := some "Failed to edit image. Network issue or invalid prompt?" }

/-- src/services/geminiService.ts lines 176-184: the catch handler of
generateHDImageWithGemini.  Note that its marker string carries a trailing
period, unlike the other two handlers, and that its generic branch embeds
the thrown error message into the returned error string. -/
def hdCatch (m : String) : GeminiHDImageGenerationResponse :=
  if m ≠ "" ∧ strIncludes m "Requested entity was not found." then
    { imageUrl := none,
      error := some "API key issue: HD Image generation requires billing. Please ensure your API key is enabled for billing and re-select it." }
  else
    { imageUrl := none,
      error := some ("Failed to generate HD image: " ++ jsOr m "Unknown error") }

/-- The role-tagged text unit of the model-facing transcript
(Gemini Content: role plus text parts). -/
structure GeminiContent where
  role : String
  parts : List String
deriving DecidableEq, Repr

/-- src/services/geminiService.ts lines 54-57: the map building
formattedHistory inside chatWithBhaii:
`role: msg.sender === 'user' ? 'user' : 'model', parts: [{text: msg.text}]`. -/
def formattedHistory (history : List ChatMessage) : List GeminiContent :=
  history.map fun msg =>
    { role := if msg.sender = Sender.user then "user" else "model",
      parts := [msg.text] }

/-- The request chatWithBhaii shapes before issuing the remote call:
the model name, the formatted history passed to ai.chats.create, and the
personalized message passed to sendMessageStream
(`userName ? userName + " says: " + message : message`). -/
structure ChatRequest where
  model : String
  historySent : List GeminiContent
  message : String
deriving DecidableEq, Repr

/-- src/services/geminiService.ts lines 60-72: the request shaping of
chatWithBhaii. -/
def chatRequest (message : String) (history : List ChatMessage)
    (userName : String) : ChatRequest :=
  { model := "gemini-flash-latest",
    historySent := formattedHistory history,
    message := if userName = "" then message else userName ++ " says: " ++ message }

/-- Outcome of the remote chat call: either the drained stream of chunk
texts (an absent or empty chunk text modelled as "") or a thrown error
with the given message. -/
inductive RemoteChatOutcome where
  | stream (chunks : List String)
  | thrown (msg : String)
deriving DecidableEq, Repr

/-- src/services/geminiService.ts lines 45-94: chatWithBhaii.  The first
component is the returned GeminiChatResponse; the second is the history
array as the call leaves it.  The source reads `history` only through
`.map`, which builds fresh objects, and never assigns into the array or
its elements, so the call leaves the array exactly as given. -/
def chatWithBhaii (apiKeySet : Bool) (message : String)
    (history : List ChatMessage) (userName : String)
    (remote : RemoteChatOutcome) :
    GeminiChatResponse × List ChatMessage :=
  if apiKeySet = false then
    (chatCatch "API_KEY is not set. Please ensure it is configured in your environment.", history)
  else
    match remote with
    | RemoteChatOutcome.thrown m => (chatCatch m, history)
    | RemoteChatOutcome.stream chunks =>
        ({ text := jsTrim (chunks.foldl (fun acc t => if t = "" then acc else acc ++ t) ""),
           error := none }, history)

/-- The fixed enumerated aspect-ratio set of generateHDImageWithGemini. -/
inductive AspectRatio where
  | r1x1
  | r3x4
  | r4x3
  | r9x16
  | r16x9
deriving DecidableEq, Repr

/-- The image carried in the remote image-generation response
(generatedImages[0].image); imageBytes = "" models absent bytes. -/
structure GeneratedImage where
  mimeType : String
  imageBytes : String
deriving DecidableEq, Repr

/-- Outcome of the remote image-generation call. -/
inductive RemoteImageOutcome where
  | thrown (msg : String)
  | result (image : Option GeneratedImage)
deriving DecidableEq, Repr

/-- src/services/geminiService.ts lines 146-190: generateHDImageWithGemini.
The Bool component records whether the remote generateImages call was
issued.  Note the source builds the client (which throws when no API key
is set) before validating the prompt, so an unset key reaches the catch
handler without any remote call. -/
def generateHDImageWithGemini (apiKeySet : Bool) (prompt : String)
    (ar : AspectRatio) (remote : RemoteImageOutcome) :
    GeminiHDImageGenerationResponse × Bool :=
  if apiKeySet = false then
    (hdCatch "API_KEY is not set. Please ensure it is configured in your environment.", false)
  else if jsTrim prompt = "" then
    ({ imageUrl := none, error := some "Please provide a text prompt for image generation." }, false)
  else
    match remote with
    | RemoteImageOutcome.thrown m => (hdCatch m, true)
    | RemoteImageOutcome.result none =>
        ({ imageUrl := none, error := some "Could not generate HD image. Please try a different prompt." }, true)
    | RemoteImageOutcome.result (some img) =>
        if img.imageBytes = "" then
          ({ imageUrl := none, error := some "Could not generate HD image. Please try a different prompt." }, true)
        else
          ({ imageUrl := some ("data:" ++ img.mimeType ++ ";base64," ++ img.imageBytes),
             error := none }, true)

/-- Outcome of the awaited chatWithBhaii call as seen by handleSendMessage:
either a returned GeminiChatResponse (success or error-result — the
gateway catches its own failures) or a thrown rejection, which lands in
the catch block of handleSendMessage. -/
inductive ChatCallOutcome where
  | success (resp : GeminiChatResponse)
  | thrown
deriving DecidableEq, Repr

/-- src/components/SlideshowGenerator.tsx lines 226-265 (ChatInterface):
handleSendMessage, as the transformation it applies to the in-memory
transcript.  `loading` is the UI busy flag; `now` is Date.now at
submission time and `later` the clock value when the response arrives
(the assistant id is `(Date.now() + 1).toString()` and its timestamp a
fresh Date).  The assistant text on a returned response is
`response.text || response.error || "Oops, kuch error ho gaya."`. -/
def handleSendMessage (history : List ChatMessage) (inputMessage : String)
    (loading : Bool) (outcome : ChatCallOutcome) (now later : Int) :
    List ChatMessage :=
  if jsTrim inputMessage = "" ∨ loading then history
  else
    let newUserMessage : ChatMessage :=
      { id := toString now, sender := Sender.user,
        text := jsTrim inputMessage, timestamp := now }
    let updatedHistory := history ++ [newUserMessage]
    match outcome with
    | ChatCallOutcome.success resp =>
        updatedHistory ++
          [{ id := toString (later + 1), sender := Sender.bhaii,
             text := jsOr resp.text (jsOr (resp.error.getD "") "Oops, kuch error ho gaya."),
             timestamp := later }]
    | ChatCallOutcome.thrown =>
        updatedHistory ++
          [{ id := toString (later + 1), sender := Sender.bhaii,
             text := "Bhaii ko kuch dikkat ho gayi. Dobara try karo na.",
             timestamp := later }]

/-- One element of the stored lastChat array: {id, sender, text,
timestamp-as-text}.  The sender round-trips through JSON as the same
two-value string; the timestamp is serialised by toISOString, which
encodes the instant to the millisecond exactly, so it is carried here as
the same millisecond count. -/
structure StoredChatMessage where
  id : String
  sender : Sender
  text : String
  timestampMs : Int
deriving DecidableEq, Repr

/-- JSON.stringify of one ChatMessage (inside the save effect). -/
def serializeMsg (m : ChatMessage) : StoredChatMessage :=
  { id := m.id, sender := m.sender, text := m.text, timestampMs := m.timestamp }

/-- src/unnamed/part_001 lines 27-30: `{...msg, timestamp: new
Date(msg.timestamp)}` — the Date constructor on the ISO text reproduces
the same millisecond instant. -/
def restoreMsg (s : StoredChatMessage) : ChatMessage :=
  { id := s.id, sender := s.sender, text := s.text, timestamp := s.timestampMs }

/-- A parsed stored-preferences JSON object; each field may be absent.
`lastChat = none` also covers a present value that is not an array (in
either case `.map` throws a TypeError in the load effect). -/
structure PrefsJson where
  name : Option String
  rememberMe : Option Bool
  lastChat : Option (List StoredChatMessage)
deriving DecidableEq, Repr

/-- The raw content under the storage key: either text JSON.parse rejects,
or a parsed object. -/
inductive StoredValue where
  | malformed
  | parsed (j : PrefsJson)
deriving DecidableEq, Repr

/-- JSON.stringify of a full UserPreferences record, as written by
`localStorage.setItem(STORAGE_KEY_USER_PREFS, JSON.stringify(userPrefs))`
in the save effect of ChatInterface (lines 268-279): every field is
present in the stored object. -/
def savePrefs (p : UserPreferences) : StoredValue :=
  StoredValue.parsed
    { name := some p.name, rememberMe := some p.rememberMe,
      lastChat := some (p.lastChat.map serializeMsg) }

/-- src/components/SlideshowGenerator.tsx lines 268-279 (ChatInterface):
the persistence effect.  When rememberMe holds, the full record is
written; otherwise the stored value is removed. -/
def saveEffect (userName : String) (rememberMe : Bool)
    (chatHistory : List ChatMessage) : Option StoredValue :=
  if rememberMe then
    some (savePrefs { name := userName, rememberMe := true, lastChat := chatHistory })
  else
    none

/-- The application state the load effect writes into (App.tsx useState). -/
structure AppState where
  userName : String
  rememberMe : Bool
  chatHistory : List ChatMessage
deriving DecidableEq, Repr

/-- src/unnamed/part_001 lines 19-36 (App.tsx): the load effect.  Returns
the application state after the effect and the storage content after it
(`none` when localStorage.removeItem ran or nothing was stored).
JavaScript evaluation order matters: `setUserName(userPrefs.name || '')`
and `setRememberMe(userPrefs.rememberMe || false)` run before
`userPrefs.lastChat.map(...)`; when lastChat is absent the `.map` throws,
the catch logs and removes the stored value, and the two earlier setter
calls stand.  (`x || ''` equals `x.getD ""` here since "" is falsy, and
`x || false` equals `x.getD false`.) -/
def loadEffect (stored : Option StoredValue) (st : AppState) :
    AppState × Option StoredValue :=
  match stored with
  | none => (st, none)
  | some StoredValue.malformed => (st, none)
  | some (StoredValue.parsed j) =>
      let st1 : AppState :=
        { st with userName := j.name.getD "", rememberMe := j.rememberMe.getD false }
      match j.lastChat with
      | none => (st1, none)
      | some msgs =>
          ({ st1 with chatHistory := msgs.map restoreMsg },
           some (StoredValue.parsed j))

/-- src/components/SlideshowGenerator.tsx line 5: MAX_SLIDES. -/
def MAX_SLIDES : Nat := 6

/-- src/components/SlideshowGenerator.tsx lines 74-75 (handleGenerate):
`inputText.split('\n').map(line => line.trim()).filter(line =>
line.length > 0)` then `.slice(0, MAX_SLIDES)`. -/
def generatedSlides (inputText : String) : List String :=
  (((splitOnNewline inputText.data).map (fun cs => jsTrim (String.mk cs))).filter
    (fun line => 0 < line.length)).take MAX_SLIDES

/-- Spec words (section 4.4 / section 8): "splits input text into
non-empty trimmed lines"; generatedSlides is compared against the
MAX_SLIDES-prefix of this list. -/
def specTrimmedNonEmptyLines (inputText : String) : List String :=
  ((splitOnNewline inputText.data).map (fun cs => jsTrim (String.mk cs))).filter
    (fun line => line ≠ "")

/-- The slideshow component state relevant to playback (slides,
currentSlideIndex, isPlaying, statusMessage, error useState hooks). -/
structure SlideshowState where
  slides : List String
  currentSlideIndex : Nat
  isPlaying : Bool
  statusMessage : String
  error : Option String
deriving DecidableEq, Repr

/-- src/components/SlideshowGenerator.tsx lines 19-29: startSlideshow. -/
def startSlideshow (newSlides : List String) (s : SlideshowState) :
    SlideshowState :=
  if newSlides.length = 0 then
    { s with error := some "No valid slides generated. Please enter some text.",
             isPlaying := false }
  else
    { s with slides := newSlides, currentSlideIndex := 0, isPlaying := true,
             statusMessage := "Slideshow playing..." }

/-- src/components/SlideshowGenerator.tsx lines 40-68: one firing of the
scheduled timeout.  The effect schedules the timeout only while
`isPlaying && slides.length > 0`; the callback increments the index while
below the last slide, and past it calls stopSlideshow (clearing the flag)
and then overwrites the status with the finished message, resetting the
index to 0. -/
def timerAdvance (s : SlideshowState) : SlideshowState :=
  if s.isPlaying ∧ 0 < s.slides.length then
    if s.currentSlideIndex < s.slides.length - 1 then
      { s with currentSlideIndex := s.currentSlideIndex + 1 }
    else
      { s with isPlaying := false, currentSlideIndex := 0,
               statusMessage := "Slideshow finished! You can generate another one." }
  else s

/-- C1: an accepted chat submission (non-empty trimmed input, no request
in flight) grows the transcript by exactly 2: the user turn is appended
first, then exactly one assistant turn, whether the gateway call returns
a success, returns an error result, or throws. -/
theorem claim1_transcript_grows_by_two (history : List ChatMessage)
    (inputMessage : String) (outcome : ChatCallOutcome) (now later : Int)
    (h : jsTrim inputMessage ≠ "") :
    (handleSendMessage history inputMessage false outcome now later).length
        = history.length + 2 ∧
    ∃ asst : ChatMessage,
      handleSendMessage history inputMessage false outcome now later =
        history ++
          [{ id := toString now, sender := Sender.user,
             text := jsTrim inputMessage, timestamp := now }, asst] ∧
      asst.sender = Sender.bhaii := by
  cases outcome with
  | success resp =>
      refine ⟨by simp [handleSendMessage, h],
        ⟨{ id := toString (later + 1), sender := Sender.bhaii,
           text := jsOr resp.text (jsOr (resp.error.getD "") "Oops, kuch error ho gaya."),
           timestamp := later }, by simp [handleSendMessage, h], rfl⟩⟩
  | thrown =>
      refine ⟨by simp [handleSendMessage, h],
        ⟨{ id := toString (later + 1), sender := Sender.bhaii,
           text := "Bhaii ko kuch dikkat ho gayi. Dobara try karo na.",
           timestamp := later }, by simp [handleSendMessage, h], rfl⟩⟩

/-- Witness for C1 at a concrete accepted submission with a thrown call. -/
theorem claim1_witness :
    (handleSendMessage [] "hi" false ChatCallOutcome.thrown 0 1).length
        = List.length ([] : List ChatMessage) + 2 ∧
    ∃ asst : ChatMessage,
      handleSendMessage [] "hi" false ChatCallOutcome.thrown 0 1 =
        [] ++
          [{ id := toString (0 : Int), sender := Sender.user,
             text := jsTrim "hi", timestamp := 0 }, asst] ∧
      asst.sender = Sender.bhaii :=
  claim1_transcript_grows_by_two [] "hi" ChatCallOutcome.thrown 0 1 (by decide)

/-- C2 as stated is false: a prior turn sent by the assistant is mapped
to role "model", not role "assistant".  Concretely, a one-element history
holding one assistant (bhaii) turn is sent as a unit whose role is
"model", and "model" differs from "assistant". -/
theorem claim2_counterexample :
    (chatRequest "yo"
        [{ id := "1", sender := Sender.bhaii, text := "hi", timestamp := 0 }]
        "").historySent = [{ role := "model", parts := ["hi"] }] ∧
    ("model" : String) ≠ "assistant" := by
  exact ⟨rfl, by decide⟩

/-- C2 amended: each prior turn is mapped positionally to a role-tagged
unit before the request is issued, user turns to role "user" and
assistant turns to role "model" (not "assistant"), with the turn text as
the single part. -/
theorem claim2_roles_user_and_model (message userName : String)
    (history : List ChatMessage) (i : Nat) (msg : ChatMessage)
    (h : history[i]? = some msg) :
    (chatRequest message history userName).historySent.length = history.length ∧
    (chatRequest message history userName).historySent[i]? =
      some { role := if msg.sender = Sender.user then "user" else "model",
             parts := [msg.text] } := by
  constructor
  · simp [chatRequest, formattedHistory]
  · simp [chatRequest, formattedHistory, h]

/-- Witness for C2 amended on a two-turn history at the assistant turn. -/
theorem claim2_witness :
    (chatRequest "yo"
        [{ id := "1", sender := Sender.user, text := "a", timestamp := 0 },
         { id := "2", sender := Sender.bhaii, text := "b", timestamp := 1 }]
        "N").historySent.length =
      List.length
        [({ id := "1", sender := Sender.user, text := "a", timestamp := 0 } : ChatMessage),
         { id := "2", sender := Sender.bhaii, text := "b", timestamp := 1 }] ∧
    (chatRequest "yo"
        [{ id := "1", sender := Sender.user, text := "a", timestamp := 0 },
         { id := "2", sender := Sender.bhaii, text := "b", timestamp := 1 }]
        "N").historySent[1]? =
      some { role := if Sender.bhaii = Sender.user then "user" else "model",
             parts := ["b"] } :=
  claim2_roles_user_and_model "yo" "N"
    [{ id := "1", sender := Sender.user, text := "a", timestamp := 0 },
     { id := "2", sender := Sender.bhaii, text := "b", timestamp := 1 }]
    1 { id := "2", sender := Sender.bhaii, text := "b", timestamp := 1 } rfl

/-- C3: saving a UserPreferences record to durable storage and loading it
back reproduces the identical name, rememberMe, and transcript (ids,
senders, texts, and millisecond timestamps). -/
theorem claim3_prefs_roundtrip (p : UserPreferences) (st : AppState) :
    (loadEffect (some (savePrefs p)) st).1 =
      { userName := p.name, rememberMe := p.rememberMe,
        chatHistory := p.lastChat } := by
  have hid : restoreMsg ∘ serializeMsg = id := funext fun m => rfl
  simp [loadEffect, savePrefs, List.map_map, hid]

/-- C4 as stated is false: a stored value that is valid JSON holding a
name but no usable lastChat array makes load fail (the stored value is
purged, second component none), yet the name has already been applied to
application state — a partial recovery the claim rules out. -/
theorem claim4_counterexample :
    loadEffect
        (some (StoredValue.parsed
          { name := some "Bob", rememberMe := none, lastChat := none }))
        { userName := "", rememberMe := false, chatHistory := [] } =
      ({ userName := "Bob", rememberMe := false, chatHistory := [] }, none) ∧
    ("Bob" : String) ≠ "" := by
  exact ⟨rfl, by decide⟩

/-- C4 amended: a stored value that fails JSON parsing is treated as
none, purged, and leaves application state unchanged; a stored value that
parses as JSON but lacks a usable transcript array is still purged, but
its name and rememberMe fields are applied to application state before
the failure is caught (partial recovery of those two fields). -/
theorem claim4_malformed_load (st : AppState) (j : PrefsJson)
    (hj : j.lastChat = none) :
    loadEffect (some StoredValue.malformed) st = (st, none) ∧
    loadEffect (some (StoredValue.parsed j)) st =
      ({ st with userName := j.name.getD "",
                 rememberMe := j.rememberMe.getD false }, none) := by
  exact ⟨rfl, by simp [loadEffect, hj]⟩

/-- Witness for C4 amended at a concrete state and parsed object. -/
theorem claim4_witness :
    loadEffect (some StoredValue.malformed)
        { userName := "x", rememberMe := true, chatHistory := [] } =
      ({ userName := "x", rememberMe := true, chatHistory := [] }, none) ∧
    loadEffect
        (some (StoredValue.parsed
          { name := some "Bob", rememberMe := some true, lastChat := none }))
        { userName := "x", rememberMe := true, chatHistory := [] } =
      ({ ({ userName := "x", rememberMe := true, chatHistory := [] } : AppState) with
          userName :=
            (({ name := some "Bob", rememberMe := some true, lastChat := none } : PrefsJson)).name.getD "",
          rememberMe :=
            (({ name := some "Bob", rememberMe := some true, lastChat := none } : PrefsJson)).rememberMe.getD false },
        none) :=
  claim4_malformed_load
    { userName := "x", rememberMe := true, chatHistory := [] }
    { name := some "Bob", rememberMe := some true, lastChat := none } rfl

/-- C5 as stated is false for the HD image operation: on the generic
remote failure "boom" (which does not contain the entity-not-found
marker), the returned error string embeds the diagnostic detail "boom"
and is not a fixed message (it differs from the error for "bam"). -/
theorem claim5_counterexample :
    hdCatch "boom" ≠ hdCatch "bam" ∧
    (hdCatch "boom").error = some "Failed to generate HD image: boom" ∧
    strIncludes "Failed to generate HD image: boom" "boom" = true ∧
    strIncludes "boom" "Requested entity was not found." = false := by
  decide

/-- C5 amended: on a generic remote failure (message not containing the
entity-not-found marker of either spelling), the chat and image-edit
operations return fixed friendly fallback messages that carry no
diagnostic detail, while the HD image-generation operation returns a
fixed prefix followed by the thrown error message (or "Unknown error"
when the message is absent). -/
theorem claim5_generic_failures (m : String)
    (h1 : strIncludes m "Requested entity was not found" = false)
    (h2 : strIncludes m "Requested entity was not found." = false) :
    chatCatch m =
      { text := "", error := some "Sorry, kuch gadbad ho gayi. Can you please try again?" } ∧
    editCatch m =
      { imageUrl := none, error := some "Failed to edit image. Network issue or invalid prompt?" } ∧
    hdCatch m =
      { imageUrl := none,
        error := some ("Failed to generate HD image: " ++ jsOr m "Unknown error") } := by
  refine ⟨?_, ?_, ?_⟩ <;> simp [chatCatch, editCatch, hdCatch, h1, h2]

/-- Witness for C5 amended at the concrete generic failure "boom". -/
theorem claim5_witness :
    chatCatch "boom" =
      { text := "", error := some "Sorry, kuch gadbad ho gayi. Can you please try again?" } ∧
    editCatch "boom" =
      { imageUrl := none, error := some "Failed to edit image. Network issue or invalid prompt?" } ∧
    hdCatch "boom" =
      { imageUrl := none,
        error := some ("Failed to generate HD image: " ++ jsOr "boom" "Unknown error") } :=
  claim5_generic_failures "boom" (by decide) (by decide)

/-- C6: slideshow generation splits the text on newlines into trimmed
non-empty lines and keeps at most MAX_SLIDES = 6 slides, the first in
order; "A\nB\n\nC" yields exactly ["A","B","C"], and 8 non-blank lines
yield exactly the first 6. -/
theorem claim6_slides (inputText : String) :
    generatedSlides "A\nB\n\nC" = ["A", "B", "C"] ∧
    generatedSlides "L1\nL2\nL3\nL4\nL5\nL6\nL7\nL8" =
      ["L1", "L2", "L3", "L4", "L5", "L6"] ∧
    generatedSlides inputText = (specTrimmedNonEmptyLines inputText).take MAX_SLIDES ∧
    (generatedSlides inputText).length ≤ MAX_SLIDES := by
  refine ⟨by decide, by decide, ?_, ?_⟩
  · unfold generatedSlides specTrimmedNonEmptyLines
    congr 1
    apply List.filter_congr
    intro line _
    cases line with
    | mk data => cases data <;> simp [String.length, String.ext_iff]
  · unfold generatedSlides
    exact List.length_take_le _ _

/-- C7: starting playback on a non-empty slide list puts the machine in
Playing at index 0; each of the first N-1 timer advances increments the
index by 1, and the N-th advance stops playback and resets the index to
0 (back to Idle). -/
theorem claim7_playback (slides : List String) (s : SlideshowState)
    (h : slides ≠ []) :
    (∀ k, k < slides.length →
      timerAdvance^[k] (startSlideshow slides s) =
        { slides := slides, currentSlideIndex := k, isPlaying := true,
          statusMessage := "Slideshow playing...", error := s.error }) ∧
    timerAdvance^[slides.length] (startSlideshow slides s) =
      { slides := slides, currentSlideIndex := 0, isPlaying := false,
        statusMessage := "Slideshow finished! You can generate another one.",
        error := s.error } := by
  have h0 : 0 < slides.length := List.length_pos.mpr h
  have hstart : startSlideshow slides s =
      { slides := slides, currentSlideIndex := 0, isPlaying := true,
        statusMessage := "Slideshow playing...", error := s.error } := by
    simp [startSlideshow, Nat.pos_iff_ne_zero.mp h0]
  have main : ∀ k, k < slides.length →
      timerAdvance^[k] (startSlideshow slides s) =
        { slides := slides, currentSlideIndex := k, isPlaying := true,
          statusMessage := "Slideshow playing...", error := s.error } := by
    intro k
    induction k with
    | zero => intro _; simpa using hstart
    | succ n ih =>
        intro hk
        have h1 : n < slides.length := Nat.lt_of_succ_lt hk
        have h2 : n < slides.length - 1 := by omega
        rw [Function.iterate_succ_apply', ih h1]
        simp [timerAdvance, h0, h2]
  refine ⟨main, ?_⟩
  obtain ⟨L, hL⟩ : ∃ L, slides.length = L + 1 := ⟨slides.length - 1, by omega⟩
  have hLlt : L < slides.length := by omega
  have hnot : ¬ L < slides.length - 1 := by omega
  rw [hL, Function.iterate_succ_apply', main L hLlt]
  simp [timerAdvance, h0, hnot]

/-- Witness for C7 at a concrete two-slide list. -/
theorem claim7_witness :
    (∀ k, k < List.length ["a", "b"] →
      timerAdvance^[k] (startSlideshow ["a", "b"]
          { slides := [], currentSlideIndex := 0, isPlaying := false,
            statusMessage := "", error := none }) =
        { slides := ["a", "b"], currentSlideIndex := k, isPlaying := true,
          statusMessage := "Slideshow playing...", error := none }) ∧
    timerAdvance^[List.length ["a", "b"]] (startSlideshow ["a", "b"]
        { slides := [], currentSlideIndex := 0, isPlaying := false,
          statusMessage := "", error := none }) =
      { slides := ["a", "b"], currentSlideIndex := 0, isPlaying := false,
        statusMessage := "Slideshow finished! You can generate another one.",
        error := none } :=
  claim7_playback ["a", "b"]
    { slides := [], currentSlideIndex := 0, isPlaying := false,
      statusMessage := "", error := none } (by decide)

/-- C8: for a whitespace-only (or empty) prompt and any aspect ratio,
the image-generation gateway operation returns a result with the error
field set, and the remote image-generation call is not issued —
whether or not the API key is configured. -/
theorem claim8_blank_prompt (apiKeySet : Bool) (prompt : String)
    (ar : AspectRatio) (remote : RemoteImageOutcome)
    (h : jsTrim prompt = "") :
    ((generateHDImageWithGemini apiKeySet prompt ar remote).1).error.isSome = true ∧
    (generateHDImageWithGemini apiKeySet prompt ar remote).2 = false := by
  cases apiKeySet with
  | false =>
      have hfix : generateHDImageWithGemini false prompt ar remote =
          (hdCatch "API_KEY is not set. Please ensure it is configured in your environment.",
           false) := by
        simp [generateHDImageWithGemini]
      rw [hfix]
      exact ⟨by decide, rfl⟩
  | true =>
      constructor <;> simp [generateHDImageWithGemini, h]

/-- Witness for C8 at the concrete whitespace prompt. -/
theorem claim8_witness :
    ((generateHDImageWithGemini true "   " AspectRatio.r1x1
        (RemoteImageOutcome.result none)).1).error.isSome = true ∧
    (generateHDImageWithGemini true "   " AspectRatio.r1x1
        (RemoteImageOutcome.result none)).2 = false :=
  claim8_blank_prompt true "   " AspectRatio.r1x1
    (RemoteImageOutcome.result none) (by decide)

/-- C9: when the gateway returns a result whose text is empty and whose
error is absent, the session controller appends an assistant turn
carrying the fixed fallback text "Oops, kuch error ho gaya." rather than
the empty payload. -/
theorem claim9_empty_result_fallback (history : List ChatMessage)
    (inputMessage : String) (now later : Int)
    (h : jsTrim inputMessage ≠ "") :
    handleSendMessage history inputMessage false
        (ChatCallOutcome.success { text := "", error := none }) now later =
      history ++
        [{ id := toString now, sender := Sender.user,
           text := jsTrim inputMessage, timestamp := now },
         { id := toString (later + 1), sender := Sender.bhaii,
           text := "Oops, kuch error ho gaya.", timestamp := later }] := by
  simp [handleSendMessage, h, jsOr]

/-- Witness for C9 at a concrete submission. -/
theorem claim9_witness :
    handleSendMessage [] "hi" false
        (ChatCallOutcome.success { text := "", error := none }) 0 1 =
      [] ++
        [{ id := toString (0 : Int), sender := Sender.user,
           text := jsTrim "hi", timestamp := 0 },
         { id := toString ((1 : Int) + 1), sender := Sender.bhaii,
           text := "Oops, kuch error ho gaya.", timestamp := 1 }] :=
  claim9_empty_result_fallback [] "hi" 0 1 (by decide)

/-- C10: the chat gateway operation leaves the prior-turns sequence it
was given unchanged — no entry is mutated, added, removed, or
reordered — on every path (no API key, stream drained, thrown error). -/
theorem claim10_history_unchanged (apiKeySet : Bool) (message : String)
    (history : List ChatMessage) (userName : String)
    (remote : RemoteChatOutcome) :
    (chatWithBhaii apiKeySet message history userName remote).2 = history := by
  cases apiKeySet <;> cases remote <;> rfl

end BhaiiAI
